import Mathlib

/-!
Verification of the Solace client SDK (solace-senior-dev-take-home).

Shallow embedding of:
* the energy voice-activity classifier `detectVoiceActivity`
  (task-B/src/index.ts, lines 266-285),
* the VAD configuration validation at the head of `recordAndDetectVoice`
  (task-B/src/index.ts, lines 91-105),
* the frame-collection loop of `handleStart`
  (task-c/client/src/App.tsx, lines 154-182),
* the frame-channel producer/cleanup logic of `recordAndDetectVoice`
  (task-B/src/index.ts lines 151-259 and
   task-c/client/src/sdk/index.ts lines 106-221),
* the S3 upload helper `uploadBlobToS3` (task-B/src/index.ts, lines 338-345),
* the base64 transport helpers `arrayBufferToBase64` / `base64ToArrayBuffer`
  (task-B/src/index.ts, lines 4-18),
* the AEAD blob codec `encryptBlob` / `decryptBlob`
  (task-B/src/index.ts, lines 21-66).

JavaScript numbers appearing in comparisons with the decimal threshold
literals are modelled as rationals (ℚ); byte buffers as `List Nat` with
every element `< 256`.
-/

namespace Solace

/-! ### Energy voice-activity classifier

Source (task-B/src/index.ts):
```
const thresholds = [0.001, 0.0005, 0.0002, 0.0001];
const threshold = thresholds[sensitivity] || 0.0002;
return rms > threshold;
```
JavaScript array indexing `thresholds[s]` yields an element only when `s`
is exactly one of the integer indices 0, 1, 2, 3; for any other number it
yields `undefined`, and since every table entry is nonzero (truthy), the
`|| 0.0002` fallback fires exactly when `s` is not an integer index.
-/

/-- `thresholds[sensitivity] || 0.0002` from `detectVoiceActivity`:
table entry for the integer indices 0-3, default `0.0002` otherwise. -/
def thresholdFor (sensitivity : ℚ) : ℚ :=
  if sensitivity = 0 then 1/1000
  else if sensitivity = 1 then 1/2000
  else if sensitivity = 2 then 1/5000
  else if sensitivity = 3 then 1/10000
  else 1/5000

/-- The 4-entry threshold table `[0.001, 0.0005, 0.0002, 0.0001]`. -/
def thresholds : List ℚ := [1/1000, 1/2000, 1/5000, 1/10000]

/-- `detectVoiceActivity` (task-B/src/index.ts, lines 266-285) as a function
of the frame's RMS value.  The source computes
`rms = Math.sqrt(sum of squares / length)` — a nonnegative real determined
by the frame — and returns `rms > threshold`; all properties verified here
quantify over that RMS value, so the classifier is embedded as the final
comparison against the sensitivity-selected threshold. -/
def detectVoiceActivity (rms : ℚ) (sensitivity : ℚ) : Bool :=
  rms > thresholdFor sensitivity

/-- The set of sensitivity levels in {0,1,2,3} at which a frame of the given
RMS is classified as voice. -/
def voiceSensitivities (rms : ℚ) : Finset (Fin 4) :=
  Finset.univ.filter (fun s => detectVoiceActivity rms (s.val : ℚ))

/-! ### VAD configuration validation

Source (task-B/src/index.ts, lines 97-105): three `if` checks run before
`getUserMedia`, the audio context, or the script processor are touched:
```
if (vadConfig.sensitivity < 0 || vadConfig.sensitivity > 3) throw ...
if (![10, 20, 30].includes(vadConfig.frameDuration)) throw ...
if (![8000, 16000, 32000, 48000].includes(vadConfig.sampleRate)) throw ...
```
-/

/-- The validation prefix of `recordAndDetectVoice`: the error message of
the first failing check, or `none` when the configuration passes. -/
def vadValidate (sensitivity frameDuration sampleRate : ℚ) : Option String :=
  if sensitivity < 0 ∨ sensitivity > 3 then
    some "VAD sensitivity must be between 0 and 3"
  else if ¬ (frameDuration = 10 ∨ frameDuration = 20 ∨ frameDuration = 30) then
    some "VAD frame duration must be 10, 20, or 30 ms"
  else if ¬ (sampleRate = 8000 ∨ sampleRate = 16000 ∨ sampleRate = 32000 ∨
             sampleRate = 48000) then
    some "VAD sample rate must be 8000, 16000, 32000, or 48000 Hz"
  else none

/-- Outcome of starting `recordAndDetectVoice`: either the configuration
error thrown by the validation prefix, or the session proceeds to acquire
the microphone stream, audio context and processor. -/
inductive StartResult where
  | configError (msg : String)
  | acquired
  deriving DecidableEq, Repr

/-- The head of `recordAndDetectVoice` (task-B/src/index.ts, lines 91-125):
validation runs first; resources are acquired only when it passes. -/
def recordStart (sensitivity frameDuration sampleRate : ℚ) : StartResult :=
  match vadValidate sensitivity frameDuration sampleRate with
  | some msg => .configError msg
  | none => .acquired

/-! ### The frame-collection loop of `handleStart`

Source (task-c/client/src/App.tsx, lines 154-182):
```
let frameCount = 0;
let stopRequested = false;
let lastSpeechFrame = 0;
const minFrames = 5;
const maxFrames = 100;
const speechTimeout = 20;
for await (const { frame } of vad) {
  framesRef.current.push(frame);
  frameCount++;
  lastSpeechFrame = frameCount;
  ...
  if (!recording && !stopRequested) { stopRequested = true; }
  if ((stopRequested && frameCount >= minFrames &&
       (frameCount - lastSpeechFrame) >= speechTimeout) ||
      frameCount >= maxFrames) { break; }
}
```
Each loop iteration accepts exactly one frame (the `vad` generator yields
only voice frames).  The value of `!recording` read at iteration `n` is an
external input and is modelled as a per-iteration stop signal. -/

def minFrames : Nat := 5
def maxFrames : Nat := 100
def speechTimeout : Nat := 20

/-- The mutable loop variables of `handleStart`, plus whether the loop has
exited (`break` taken). -/
structure SessionState where
  frameCount : Nat
  lastSpeechFrame : Nat
  stopRequested : Bool
  stopped : Bool
  deriving DecidableEq, Repr

def initialSession : SessionState :=
  { frameCount := 0, lastSpeechFrame := 0, stopRequested := false,
    stopped := false }

/-- One iteration of the `for await` body on an arriving voice frame;
`stopSignal` is the value of `!recording` observed at this iteration.
After the loop has exited no further frame is accepted. -/
def sessionStep (st : SessionState) (stopSignal : Bool) : SessionState :=
  if st.stopped then st
  else
    let fc := st.frameCount + 1
    let lsf := fc
    let sr := st.stopRequested || stopSignal
    { frameCount := fc, lastSpeechFrame := lsf, stopRequested := sr,
      stopped := (sr && decide (fc ≥ minFrames) &&
                  decide (fc - lsf ≥ speechTimeout)) ||
                 decide (fc ≥ maxFrames) }

/-- The whole loop over a finite trace of arriving voice frames, each paired
with the stop signal observed at that iteration. -/
def runSession (signals : List Bool) : SessionState :=
  signals.foldl sessionStep initialSession

/-! ### The frame channel (producer / consumer / close)

Producer logic shared by both SDK copies
(task-B/src/index.ts lines 190-198, task-c/client/src/sdk/index.ts
lines 149-156): when a waiter is pending, resolve it with the frame,
otherwise push the frame on the FIFO queue; the whole callback is a no-op
once `isDone` holds.

Cleanup (the generator's `finally` block) differs between the two copies:
task-B (lines 251-259) only sets `isDone` and releases the audio resources;
the task-c client SDK (lines 209-221) additionally resolves a pending
waiter with `undefined`, the end-of-stream sentinel that makes the consumer
loop `break`.

`waiterResult = none` models a still-pending promise; `some none` a promise
resolved with the `undefined` sentinel; `some (some f)` a promise resolved
with frame `f`. -/

structure ChannelState where
  queue : List Nat
  waiterPending : Bool
  waiterResult : Option (Option Nat)
  isDone : Bool
  deriving DecidableEq, Repr

/-- The producer's delivery of one classified voice frame
(`processor.onaudioprocess` body, frame-completion branch). -/
def producerDeliver (st : ChannelState) (frame : Nat) : ChannelState :=
  if st.isDone then st
  else if st.waiterPending then
    { st with waiterPending := false, waiterResult := some (some frame) }
  else { st with queue := st.queue ++ [frame] }

/-- task-B cleanup (task-B/src/index.ts, lines 251-259): sets `isDone` and
releases resources; `resolveNext` is not touched. -/
def cleanupTaskB (st : ChannelState) : ChannelState :=
  { st with isDone := true }

/-- task-c client SDK cleanup (task-c/client/src/sdk/index.ts, lines
209-221): sets `isDone` and resolves a pending waiter with `undefined`. -/
def cleanupTaskC (st : ChannelState) : ChannelState :=
  if st.waiterPending then
    { st with isDone := true, waiterPending := false,
              waiterResult := some none }
  else { st with isDone := true }

/-! ### S3 upload via presigned URL

Source (task-B/src/index.ts, lines 338-345):
```
const response = await fetch(presignedUrl, { method: 'PUT', body: blob });
if (!response.ok) throw new Error(`S3 upload failed: ${response.statusText}`);
```
The `fetch` call is split into the request it issues and the handling of
the response it receives; `Response.ok` is status in the range 200-299. -/

structure FetchResponse where
  status : Nat
  statusText : String
  deriving DecidableEq, Repr

def respOk (r : FetchResponse) : Bool :=
  200 ≤ r.status && r.status ≤ 299

structure FetchRequest where
  url : String
  method : String
  deriving DecidableEq, Repr

/-- The request `uploadBlobToS3` issues for a presigned URL. -/
def uploadRequest (presignedUrl : String) : FetchRequest :=
  { url := presignedUrl, method := "PUT" }

/-- `uploadBlobToS3`'s handling of the fetch response: resolve on a 2xx
status, reject with the status text otherwise. -/
def uploadBlobToS3 (resp : FetchResponse) : Except String Unit :=
  if respOk resp then .ok ()
  else .error ("S3 upload failed: " ++ resp.statusText)

/-! ### Base64 transport encoding

`arrayBufferToBase64` (task-B/src/index.ts, lines 4-8) maps each byte to
the character of that code (`String.fromCharCode`, the identity on values
below 256) and applies the browser primitive `btoa`; `base64ToArrayBuffer`
(lines 10-18) applies `atob` and reads the character codes back.  Both are
embedded over byte lists: `b64encode`/`b64decode` model `btoa`/`atob`
(RFC 4648 base64 with `=` padding, output as character codes); `atob`
throws on a string whose length is not a multiple of four, modelled by
`none`.  A `=` (code 61) in third or fourth position ends the output as it
does for `atob` on well-padded input. -/

/-- Base64 alphabet: the character code of a 6-bit value. -/
def sextetChar (n : Nat) : Nat :=
  if n < 26 then 65 + n
  else if n < 52 then 97 + (n - 26)
  else if n < 62 then 48 + (n - 52)
  else if n = 62 then 43
  else 47

/-- Base64 alphabet, decoding direction. -/
def charSextet (c : Nat) : Nat :=
  if 65 ≤ c ∧ c ≤ 90 then c - 65
  else if 97 ≤ c ∧ c ≤ 122 then c - 97 + 26
  else if 48 ≤ c ∧ c ≤ 57 then c - 48 + 52
  else if c = 43 then 62
  else 63

/-- `btoa` on a byte list: character codes of the base64 encoding. -/
def b64encode : List Nat → List Nat
  | a :: b :: c :: rest =>
      sextetChar (a / 4) :: sextetChar ((a % 4) * 16 + b / 16) ::
      sextetChar ((b % 16) * 4 + c / 64) :: sextetChar (c % 64) ::
      b64encode rest
  | [a, b] =>
      [sextetChar (a / 4), sextetChar ((a % 4) * 16 + b / 16),
       sextetChar ((b % 16) * 4), 61]
  | [a] =>
      [sextetChar (a / 4), sextetChar ((a % 4) * 16), 61, 61]
  | [] => []

/-- `atob` on a list of character codes: the decoded byte list, `none` when
the length is not a multiple of four. -/
def b64decode : List Nat → Option (List Nat)
  | w :: x :: y :: z :: rest =>
      if y = 61 then some [charSextet w * 4 + charSextet x / 16]
      else if z = 61 then
        some [charSextet w * 4 + charSextet x / 16,
              (charSextet x % 16) * 16 + charSextet y / 4]
      else
        (b64decode rest).map (fun tail =>
          (charSextet w * 4 + charSextet x / 16) ::
          ((charSextet x % 16) * 16 + charSextet y / 4) ::
          ((charSextet y % 4) * 64 + charSextet z) :: tail)
  | [] => some []
  | _ => none

/-- `arrayBufferToBase64` over the buffer's bytes. -/
def arrayBufferToBase64 (buffer : List Nat) : List Nat :=
  b64encode buffer

/-- `base64ToArrayBuffer` over the string's character codes; `none` models
the `atob` exception. -/
def base64ToArrayBuffer (base64 : List Nat) : Option (List Nat) :=
  b64decode base64

/-! ### AEAD blob codec

`encryptBlob` (task-B/src/index.ts, lines 21-46) generates a fresh AES-GCM
key with `crypto.subtle.generateKey` and a fresh 12-byte IV, encrypts the
UTF-8 bytes of the input, splits the WebCrypto output (ciphertext followed
by a 16-byte tag) and base64-encodes the three fields.  The generated key
appears nowhere in the return value `{ iv, ciphertext, tag }` and is
dropped when the function returns.

`decryptBlob` (lines 48-66) base64-decodes the three fields, re-joins
ciphertext and tag and calls `crypto.subtle.decrypt` with the key supplied
by the caller.

The WebCrypto AES-GCM primitive is a platform collaborator, not repository
code; it is modelled by an abstract `AEAD` with its functional contract:
`AEADCorrect` (decryption under the encryption key and IV restores the
plaintext) and `AEADAuth` (decryption of an encryption under a different
key fails — AES-GCM guarantees this except with negligible probability).
`AEADTagged` records that the output is the ciphertext (same length as the
plaintext for a counter-mode cipher) followed by a 16-byte tag, and that
encryption outputs are bytes. -/

structure AEAD (Key : Type) where
  encrypt : Key → List Nat → List Nat → List Nat
  decrypt : Key → List Nat → List Nat → Option (List Nat)

def AEADCorrect {Key : Type} (A : AEAD Key) : Prop :=
  ∀ k iv p, A.decrypt k iv (A.encrypt k iv p) = some p

def AEADAuth {Key : Type} (A : AEAD Key) : Prop :=
  ∀ k k' iv p, k ≠ k' → A.decrypt k' iv (A.encrypt k iv p) = none

def AEADTagged {Key : Type} (A : AEAD Key) : Prop :=
  ∀ k iv p, (∀ x ∈ p, x < 256) →
    (A.encrypt k iv p).length = p.length + 16 ∧
    ∀ x ∈ A.encrypt k iv p, x < 256

/-- The return value of `encryptBlob`: three base64 fields, no key. -/
structure EncryptedBlob where
  iv : List Nat
  ciphertext : List Nat
  tag : List Nat
  deriving DecidableEq, Repr

/-- `encryptBlob` (task-B/src/index.ts, lines 21-46).  `freshKey` and
`freshIV` are the values produced by `crypto.subtle.generateKey` and
`crypto.getRandomValues`; note that `freshKey` occurs in no field of the
result. -/
def encryptBlob {Key : Type} (A : AEAD Key) (freshKey : Key)
    (freshIV : List Nat) (data : List Nat) : EncryptedBlob :=
  let encrypted := A.encrypt freshKey freshIV data
  let tagLength := 16
  let tag := encrypted.drop (encrypted.length - tagLength)
  let ciphertext := encrypted.take (encrypted.length - tagLength)
  { iv := arrayBufferToBase64 freshIV,
    ciphertext := arrayBufferToBase64 ciphertext,
    tag := arrayBufferToBase64 tag }

/-- `decryptBlob` (task-B/src/index.ts, lines 48-66): base64-decode the
fields, concatenate ciphertext and tag, decrypt under the caller's key.
`none` models a thrown exception (`atob` failure or AEAD tag mismatch). -/
def decryptBlob {Key : Type} (A : AEAD Key) (blob : EncryptedBlob)
    (key : Key) : Option (List Nat) := do
  let ivBuf ← base64ToArrayBuffer blob.iv
  let ctBuf ← base64ToArrayBuffer blob.ciphertext
  let tagBuf ← base64ToArrayBuffer blob.tag
  A.decrypt key ivBuf (ctBuf ++ tagBuf)

/-- A concrete AEAD instance satisfying the contract, used to evaluate the
codec on explicit inputs: the ciphertext is the plaintext and the 16-byte
tag encodes the key, so decryption succeeds exactly under the encryption
key. -/
def toyAEAD : AEAD (Fin 256) where
  encrypt k _iv p := p ++ (k.val :: List.replicate 15 0)
  decrypt k _iv c :=
    if c.drop (c.length - 16) = k.val :: List.replicate 15 0 then
      some (c.take (c.length - 16))
    else none

/-! ## Helper lemmas -/

theorem charSextet_sextetChar {n : Nat} (h : n < 64) :
    charSextet (sextetChar n) = n := by
  have : ∀ m : Fin 64, charSextet (sextetChar m.val) = m.val := by decide
  exact this ⟨n, h⟩

theorem sextetChar_ne_61 {n : Nat} (h : n < 64) : sextetChar n ≠ 61 := by
  have : ∀ m : Fin 64, sextetChar m.val ≠ 61 := by decide
  exact this ⟨n, h⟩

theorem b64decode_b64encode :
    ∀ l : List Nat, (∀ x ∈ l, x < 256) → b64decode (b64encode l) = some l
  | [], _ => rfl
  | [a], h => by
    have ha : a < 256 := h a (by simp)
    have h1 : a / 4 < 64 := by omega
    have h2 : (a % 4) * 16 < 64 := by omega
    simp only [b64encode, b64decode, if_pos rfl,
      charSextet_sextetChar h1, charSextet_sextetChar h2]
    refine congrArg some ?_
    refine congrArg (fun t => [t]) ?_
    omega
  | [a, b], h => by
    have ha : a < 256 := h a (by simp)
    have hb : b < 256 := h b (by simp)
    have h1 : a / 4 < 64 := by omega
    have h2 : (a % 4) * 16 + b / 16 < 64 := by omega
    have h3 : (b % 16) * 4 < 64 := by omega
    simp only [b64encode, b64decode, if_neg (sextetChar_ne_61 h3), if_pos rfl,
      charSextet_sextetChar h1, charSextet_sextetChar h2,
      charSextet_sextetChar h3]
    refine congrArg some ?_
    have e1 : a / 4 * 4 + (a % 4 * 16 + b / 16) / 16 = a := by omega
    have e2 : (a % 4 * 16 + b / 16) % 16 * 16 + b % 16 * 4 / 4 = b := by omega
    rw [e1, e2]
  | a :: b :: c :: rest, h => by
    have ha : a < 256 := h a (by simp)
    have hb : b < 256 := h b (by simp)
    have hc : c < 256 := h c (by simp)
    have ih := b64decode_b64encode rest (fun x hx => h x (by simp [hx]))
    have h1 : a / 4 < 64 := by omega
    have h2 : (a % 4) * 16 + b / 16 < 64 := by omega
    have h3 : (b % 16) * 4 + c / 64 < 64 := by omega
    have h4 : c % 64 < 64 := by omega
    simp only [b64encode, b64decode, if_neg (sextetChar_ne_61 h3),
      if_neg (sextetChar_ne_61 h4), ih,
      Option.map_some, charSextet_sextetChar h1, charSextet_sextetChar h2,
      charSextet_sextetChar h3, charSextet_sextetChar h4]
    refine congrArg some ?_
    have e1 : a / 4 * 4 + ((a % 4) * 16 + b / 16) / 16 = a := by omega
    have e2 : ((a % 4) * 16 + b / 16) % 16 * 16 +
        ((b % 16) * 4 + c / 64) / 4 = b := by omega
    have e3 : ((b % 16) * 4 + c / 64) % 4 * 64 + c % 64 = c := by omega
    rw [e1, e2, e3]

/-- Invariant of the `handleStart` loop: `lastSpeechFrame` always equals
`frameCount` (it is overwritten by every accepted frame), the frame count
never exceeds `maxFrames`, and the loop has exited exactly when the frame
count has reached `maxFrames`. -/
def SessionInv (st : SessionState) : Prop :=
  st.lastSpeechFrame = st.frameCount ∧ st.frameCount ≤ 100 ∧
  (st.stopped = true ↔ st.frameCount = 100)

theorem sessionStep_inv {st : SessionState} (hI : SessionInv st)
    (sig : Bool) : SessionInv (sessionStep st sig) := by
  obtain ⟨h1, h2, h3⟩ := hI
  unfold sessionStep
  by_cases hs : st.stopped = true
  · simpa [hs] using ⟨h1, h2, h3⟩
  · have hfc : st.frameCount ≠ 100 := fun hq => hs (h3.mpr hq)
    refine ⟨?_, ?_, ?_⟩ <;> simp [hs, SessionInv, minFrames, maxFrames,
      speechTimeout, Nat.sub_self]
    · omega
    · omega

theorem runSession_inv (signals : List Bool) :
    SessionInv (runSession signals) := by
  have h : ∀ (sigs : List Bool) (st : SessionState), SessionInv st →
      SessionInv (sigs.foldl sessionStep st) := by
    intro sigs
    induction sigs with
    | nil => intro st hst; exact hst
    | cons b bs ihb => intro st hst; exact ihb _ (sessionStep_inv hst b)
  exact h signals initialSession ⟨rfl, by decide, by decide⟩

/-- Round trip of the blob codec under the key `encryptBlob` generated
internally: base64 decoding inverts encoding on the three fields and the
ciphertext/tag split re-concatenates to the AEAD output. -/
theorem decryptBlob_encryptBlob {Key : Type} (A : AEAD Key)
    (hC : AEADCorrect A) (hT : AEADTagged A) (k : Key) (iv p : List Nat)
    (hiv : ∀ x ∈ iv, x < 256) (hp : ∀ x ∈ p, x < 256) :
    decryptBlob A (encryptBlob A k iv p) k = some p := by
  obtain ⟨-, hbytes⟩ := hT k iv p hp
  unfold decryptBlob encryptBlob arrayBufferToBase64 base64ToArrayBuffer
  rw [b64decode_b64encode iv hiv,
    b64decode_b64encode _ (fun x hx => hbytes x (List.take_subset _ _ hx)),
    b64decode_b64encode _ (fun x hx => hbytes x (List.drop_subset _ _ hx))]
  have hfin := hC k iv p
  rw [← List.take_append_drop ((A.encrypt k iv p).length - 16)
      (A.encrypt k iv p)] at hfin
  exact hfin

/-- Decryption of an `encryptBlob` output under any key other than the one
generated inside `encryptBlob` fails. -/
theorem decryptBlob_encryptBlob_wrongKey {Key : Type} (A : AEAD Key)
    (hA : AEADAuth A) (hT : AEADTagged A) (k k' : Key) (iv p : List Nat)
    (hk : k ≠ k') (hiv : ∀ x ∈ iv, x < 256) (hp : ∀ x ∈ p, x < 256) :
    decryptBlob A (encryptBlob A k iv p) k' = none := by
  obtain ⟨-, hbytes⟩ := hT k iv p hp
  unfold decryptBlob encryptBlob arrayBufferToBase64 base64ToArrayBuffer
  rw [b64decode_b64encode iv hiv,
    b64decode_b64encode _ (fun x hx => hbytes x (List.take_subset _ _ hx)),
    b64decode_b64encode _ (fun x hx => hbytes x (List.drop_subset _ _ hx))]
  have hfin := hA k k' iv p hk
  rw [← List.take_append_drop ((A.encrypt k iv p).length - 16)
      (A.encrypt k iv p)] at hfin
  exact hfin

/-- Characterization of the validation prefix: it reports no error exactly
for the range-and-membership conditions actually tested by the source. -/
theorem vadValidate_none_iff (s fd sr : ℚ) :
    vadValidate s fd sr = none ↔
      (0 ≤ s ∧ s ≤ 3 ∧ (fd = 10 ∨ fd = 20 ∨ fd = 30) ∧
       (sr = 8000 ∨ sr = 16000 ∨ sr = 32000 ∨ sr = 48000)) := by
  unfold vadValidate
  by_cases h1 : s < 0 ∨ s > 3
  · rw [if_pos h1]
    constructor
    · intro h; exact absurd h (by simp)
    · rintro ⟨hs0, hs3, -, -⟩
      rcases h1 with h | h <;> linarith
  · rw [if_neg h1]
    by_cases h2 : fd = 10 ∨ fd = 20 ∨ fd = 30
    · rw [if_neg (not_not_intro h2)]
      by_cases h3 : sr = 8000 ∨ sr = 16000 ∨ sr = 32000 ∨ sr = 48000
      · rw [if_neg (not_not_intro h3)]
        have hr := not_or.mp h1
        constructor
        · intro _; exact ⟨not_lt.mp hr.1, not_lt.mp hr.2, h2, h3⟩
        · intro _; rfl
      · rw [if_pos h3]
        constructor
        · intro h; exact absurd h (by simp)
        · rintro ⟨-, -, -, hsr⟩; exact (h3 hsr).elim
    · rw [if_pos h2]
      constructor
      · intro h; exact absurd h (by simp)
      · rintro ⟨-, -, hfd, -⟩; exact (h2 hfd).elim

/-- `recordAndDetectVoice` reaches resource acquisition exactly when the
validation prefix reports no error. -/
theorem recordStart_acquired_iff (s fd sr : ℚ) :
    recordStart s fd sr = StartResult.acquired ↔
      vadValidate s fd sr = none := by
  unfold recordStart
  rcases hv : vadValidate s fd sr with _ | msg <;> simp [hv]

/-! ## Claim theorems -/

/-- The UTF-8 bytes of the plaintext "hello-solace". -/
def plaintextHelloSolace : List Nat :=
  [104, 101, 108, 108, 111, 45, 115, 111, 108, 97, 99, 101]

set_option maxRecDepth 8000 in
/-- Claim C1 (status: code_bug; evaluation at the failing input).
`encryptBlob` generates its AES-GCM key internally and returns only
`{iv, ciphertext, tag}`, so the key under which it encrypted is *not*
available to the caller of `decryptBlob`: decrypting under any other key
fails, while decryption would succeed precisely under the discarded
internal key.  Evaluated on the concrete AEAD instance at plaintext
"hello-solace", internal key 1 and caller key 2. -/
theorem encryptBlob_discards_key :
    decryptBlob toyAEAD
      (encryptBlob toyAEAD 1 (List.replicate 12 1) plaintextHelloSolace) 2 =
      none ∧
    decryptBlob toyAEAD
      (encryptBlob toyAEAD 1 (List.replicate 12 1) plaintextHelloSolace) 1 =
      some plaintextHelloSolace ∧
    (1 : Fin 256) ≠ 2 := by
  decide

/-- Claim C2 (status: confirmed).  In every execution of the
frame-collection loop of `handleStart`, the number of accepted frames
never exceeds `maxFrames = 100`, and as soon as the cumulative count
reaches 100 the loop has exited (the stopped state is forced), whatever
the stop signals were. -/
theorem handleStart_maxFrames_bound (signals : List Bool) :
    (runSession signals).frameCount ≤ 100 ∧
    ((runSession signals).frameCount = 100 →
      (runSession signals).stopped = true) :=
  ⟨(runSession_inv signals).2.1, fun h => (runSession_inv signals).2.2.mpr h⟩

set_option maxRecDepth 8000 in
/-- Witness for C2: one hundred frames with no stop request fill the
recording to exactly `maxFrames` and force the exit. -/
theorem handleStart_maxFrames_bound_witness :
    (runSession (List.replicate 100 false)).stopped = true :=
  (handleStart_maxFrames_bound (List.replicate 100 false)).2 (by decide)

/-- Claim C3 (status: code_bug; what the code actually does).  The loop
body executes `lastSpeechFrame = frameCount` on every accepted frame, so
`frameCount - lastSpeechFrame` is 0 at every exit check: the
speech-timeout exit `(stopRequested && frameCount >= minFrames &&
frameCount - lastSpeechFrame >= speechTimeout)` can never fire, and the
loop exits only on reaching `maxFrames = 100` — never earlier, no matter
when the stop was requested. -/
theorem handleStart_drain_unreachable (signals : List Bool) :
    (runSession signals).frameCount - (runSession signals).lastSpeechFrame
      = 0 ∧
    ((runSession signals).stopped = true →
      (runSession signals).frameCount = 100) := by
  have h := runSession_inv signals
  exact ⟨by rw [h.1]; exact Nat.sub_self _, fun hs => h.2.2.mp hs⟩

set_option maxRecDepth 8000 in
/-- Witness for C3: with a stop requested from the very first frame the
loop still accepts all 100 frames. -/
theorem handleStart_drain_unreachable_witness :
    (runSession (List.replicate 100 true)).frameCount = 100 :=
  (handleStart_drain_unreachable (List.replicate 100 true)).2 (by decide)

/-- A channel state with a consumer currently awaiting the next frame. -/
def pendingWaiterState : ChannelState :=
  { queue := [], waiterPending := true, waiterResult := none,
    isDone := false }

/-- Claim C4 counterexample (status: corrected).  In the task-B SDK the
generator's cleanup path only sets `isDone`: a consumer awaiting the next
frame stays pending, receives no end-of-stream sentinel, and cannot be
resolved by any later producer callback either, because the producer
returns immediately once `isDone` holds. -/
theorem taskB_cleanup_leaves_waiter_pending :
    (cleanupTaskB pendingWaiterState).waiterPending = true ∧
    (cleanupTaskB pendingWaiterState).waiterResult = none ∧
    (producerDeliver (cleanupTaskB pendingWaiterState) 7).waiterPending
      = true ∧
    (producerDeliver (cleanupTaskB pendingWaiterState) 7).waiterResult
      = none := by
  decide

/-- Claim C4 as amended (status: corrected).  In the task-c client SDK the
cleanup path does resolve a pending waiter with the `undefined`
end-of-stream sentinel and leaves no waiter pending; the task-B SDK's
cleanup does not (see the counterexample). -/
theorem taskC_cleanup_resolves_waiter (st : ChannelState)
    (h : st.waiterPending = true) :
    (cleanupTaskC st).isDone = true ∧
    (cleanupTaskC st).waiterPending = false ∧
    (cleanupTaskC st).waiterResult = some none := by
  simp [cleanupTaskC, h]

/-- Witness for the amended C4. -/
theorem taskC_cleanup_resolves_waiter_witness :
    (cleanupTaskC pendingWaiterState).isDone = true ∧
    (cleanupTaskC pendingWaiterState).waiterPending = false ∧
    (cleanupTaskC pendingWaiterState).waiterResult = some none :=
  taskC_cleanup_resolves_waiter pendingWaiterState (by decide)

/-- Claim C5 counterexample (status: corrected).  The sensitivity check is
the range test `sensitivity < 0 || sensitivity > 3`, not membership in
{0,1,2,3}: the non-integer sensitivity 1.5 (with valid frame duration and
sample rate) passes validation and the session proceeds to acquire
resources, where the claim says a configuration error is raised. -/
theorem vadValidation_accepts_nonInteger_sensitivity :
    recordStart (3/2) 30 16000 = StartResult.acquired ∧
    ¬((3/2 : ℚ) = 0 ∨ (3/2 : ℚ) = 1 ∨ (3/2 : ℚ) = 2 ∨ (3/2 : ℚ) = 3) := by
  constructor
  · exact (recordStart_acquired_iff _ _ _).mpr
      ((vadValidate_none_iff _ _ _).mpr (by norm_num))
  · norm_num

/-- Claim C5 as amended (status: corrected).  `recordAndDetectVoice`
accepts a configuration exactly when `0 ≤ sensitivity ≤ 3` (any number in
that range, integer or not), `frameDuration ∈ {10,20,30}` and
`sampleRate ∈ {8000,16000,32000,48000}`; any other combination raises the
configuration error before any resource is acquired. -/
theorem vadValidation_range_semantics (s fd sr : ℚ) :
    recordStart s fd sr = StartResult.acquired ↔
      (0 ≤ s ∧ s ≤ 3 ∧ (fd = 10 ∨ fd = 20 ∨ fd = 30) ∧
       (sr = 8000 ∨ sr = 16000 ∨ sr = 32000 ∨ sr = 48000)) :=
  (recordStart_acquired_iff s fd sr).trans (vadValidate_none_iff s fd sr)

/-- Witness for the amended C5. -/
theorem vadValidation_range_semantics_witness :
    recordStart 2 30 16000 = StartResult.acquired :=
  (vadValidation_range_semantics 2 30 16000).mpr (by norm_num)

/-- Claim C6 (status: confirmed).  A frame whose RMS is 0.0003 is
classified as no voice at sensitivity 0 (threshold 0.001) and as voice at
sensitivity 3 (threshold 0.0001); for every sensitivity index in {0,1,2,3}
the classifier returns true iff `rms > thresholds[sensitivity]`, and the
4-entry threshold table is strictly descending. -/
theorem detectVoiceActivity_scenario_and_table :
    detectVoiceActivity (3/10000) 0 = false ∧
    detectVoiceActivity (3/10000) 3 = true ∧
    (∀ rms : ℚ,
      detectVoiceActivity rms 0 = decide (rms > 1/1000) ∧
      detectVoiceActivity rms 1 = decide (rms > 1/2000) ∧
      detectVoiceActivity rms 2 = decide (rms > 1/5000) ∧
      detectVoiceActivity rms 3 = decide (rms > 1/10000)) ∧
    thresholds = [1/1000, 1/2000, 1/5000, 1/10000] ∧
    List.Chain' (· > ·) thresholds := by
  refine ⟨?_, ?_, ?_, rfl, ?_⟩
  · simp only [detectVoiceActivity, thresholdFor, decide_eq_false_iff_not]
    norm_num
  · simp only [detectVoiceActivity, thresholdFor, decide_eq_true_eq]
    norm_num
  · intro rms
    refine ⟨?_, ?_, ?_, ?_⟩ <;> norm_num [detectVoiceActivity, thresholdFor]
  · norm_num [thresholds, List.chain'_cons]

/-- Claim C7 (status: confirmed).  `uploadBlobToS3` issues a PUT request
to the presigned URL; a non-2xx response rejects with an error carrying
the response's status text, a 2xx response resolves, and an HTTP 403
response rejects with a message containing "Forbidden". -/
theorem uploadBlobToS3_put_and_statusText (url : String)
    (resp : FetchResponse) :
    (uploadRequest url).method = "PUT" ∧
    (respOk resp = false →
      uploadBlobToS3 resp =
        Except.error ("S3 upload failed: " ++ resp.statusText)) ∧
    (respOk resp = true → uploadBlobToS3 resp = Except.ok ()) ∧
    (∃ pre post,
      uploadBlobToS3 { status := 403, statusText := "Forbidden" } =
        Except.error (pre ++ "Forbidden" ++ post)) := by
  refine ⟨rfl, ?_, ?_, ⟨"S3 upload failed: ", "", rfl⟩⟩
  · intro h; simp [uploadBlobToS3, h]
  · intro h; simp [uploadBlobToS3, h]

/-- Witness for C7 at the 403/"Forbidden" response. -/
theorem uploadBlobToS3_put_and_statusText_witness :
    uploadBlobToS3 { status := 403, statusText := "Forbidden" } =
      Except.error ("S3 upload failed: " ++ "Forbidden") :=
  (uploadBlobToS3_put_and_statusText "https://example.com/presigned"
    { status := 403, statusText := "Forbidden" }).2.1 (by decide)

/-- Claim C8 counterexample (status: corrected).  Strict containment
fails: the frames of RMS 0.5 and RMS 1 are both above every threshold, so
both are classified as voice at all four sensitivities and the two sets
are equal, although the RMS strictly increased. -/
theorem voiceSensitivities_not_strictMono :
    ((1 : ℚ)/2 < 1) ∧
    voiceSensitivities (1/2) = voiceSensitivities 1 ∧
    ¬ voiceSensitivities (1/2) ⊂ voiceSensitivities 1 := by
  have h2 : voiceSensitivities (1/2) = voiceSensitivities 1 := by
    unfold voiceSensitivities
    ext s
    obtain ⟨v, hv⟩ := s
    interval_cases v <;>
      norm_num [detectVoiceActivity, thresholdFor]
  refine ⟨by norm_num, h2, ?_⟩
  rw [h2]
  exact fun hss => (Finset.ssubset_iff_subset_ne.mp hss).2 rfl

/-- Claim C8 as amended (status: corrected).  Increasing the RMS weakly
increases the set of sensitivities at which voice is detected: for
RMS values r1 < r2, every sensitivity detecting the quieter frame also
detects the louder one. -/
theorem voiceSensitivities_monotone (r1 r2 : ℚ) (h : r1 < r2) :
    voiceSensitivities r1 ⊆ voiceSensitivities r2 := by
  intro s hs
  simp only [voiceSensitivities, Finset.mem_filter, Finset.mem_univ,
    true_and, detectVoiceActivity, decide_eq_true_eq] at hs ⊢
  exact lt_trans hs h

/-- Witness for the amended C8. -/
theorem voiceSensitivities_monotone_witness :
    voiceSensitivities (1/2) ⊆ voiceSensitivities 1 :=
  voiceSensitivities_monotone (1/2) 1 (by norm_num)

/-- Claim C9 (status: confirmed).  For every byte buffer,
`base64ToArrayBuffer` applied to `arrayBufferToBase64` of the buffer
returns exactly the original bytes: the base64 transport encoding of the
iv, ciphertext and tag fields is lossless. -/
theorem base64_transport_lossless (b : List Nat) (h : ∀ x ∈ b, x < 256) :
    base64ToArrayBuffer (arrayBufferToBase64 b) = some b :=
  b64decode_b64encode b h

/-- Witness for C9 on a concrete five-byte buffer. -/
theorem base64_transport_lossless_witness :
    base64ToArrayBuffer (arrayBufferToBase64 [0, 1, 127, 128, 255]) =
      some [0, 1, 127, 128, 255] :=
  base64_transport_lossless [0, 1, 127, 128, 255] (by decide)

/-- Claim C10 (status: confirmed).  For any sensitivity with no entry in
the 4-element threshold table — such as 1.5, which passes the range
validation — `detectVoiceActivity` does not fail but silently falls back
to the fixed default threshold 0.0002 and classifies by
`rms > 0.0002`. -/
theorem detectVoiceActivity_default_fallback (s : ℚ)
    (hs : ¬(s = 0 ∨ s = 1 ∨ s = 2 ∨ s = 3)) :
    thresholdFor s = 1/5000 ∧
    (∀ rms : ℚ, detectVoiceActivity rms s = decide (rms > 1/5000)) ∧
    recordStart (3/2) 30 16000 = StartResult.acquired := by
  push_neg at hs
  obtain ⟨h0, h1, h2, h3⟩ := hs
  refine ⟨by simp [thresholdFor, h0, h1, h2, h3], ?_,
    (recordStart_acquired_iff _ _ _).mpr
      ((vadValidate_none_iff _ _ _).mpr (by norm_num))⟩
  intro rms
  simp [detectVoiceActivity, thresholdFor, h0, h1, h2, h3]

/-- Witness for C10 at sensitivity 1.5. -/
theorem detectVoiceActivity_default_fallback_witness :
    thresholdFor (3/2) = 1/5000 ∧
    detectVoiceActivity (1/1000) (3/2) = decide ((1/1000 : ℚ) > 1/5000) ∧
    recordStart (3/2) 30 16000 = StartResult.acquired := by
  have h := detectVoiceActivity_default_fallback (3/2) (by norm_num)
  exact ⟨h.1, h.2.1 (1/1000), h.2.2⟩

end Solace
